import Mathlib

/-!
Shallow embedding of the `ProjectRazon/Utils` scripts:
`scripts/fundamental_waveforms/fundamental_waveforms.py` (waveform synthesis,
playback controller, audio worker) and
`scripts/simple_function_approximation/simple_function_area_approximation.py`
(rectangle approximation of a function).

Floating-point arithmetic of the scripts is modelled over the exact reals;
sample counts and GUI-level rational quantities are modelled over the
rationals, where they stay computable.
-/

/-! ### Waveform synthesis (`fundamental_waveforms.py`, lines 12-16, 78-94) -/

/-- The script constant `AMPLITUDE = 0.5`. -/
noncomputable def AMPLITUDE : ℝ := 0.5

/-- The script constant `SAMPLE_RATE = 44100`. -/
def SAMPLE_RATE : ℚ := 44100

/-- The script constant `PLAY_DURATION_S = 5.0`. -/
def PLAY_DURATION_S : ℚ := 5

/-- The script constant `FRAMES_PER_BUFFER = 1024`. -/
def FRAMES_PER_BUFFER : ℕ := 1024

/-- `int(sample_rate * duration)`: the sample count used by every generator.
Python `int` truncates toward zero, which on nonnegative products is the
floor; `Int.toNat` clips the (unreachable for positive inputs) negative
case to `0`, matching an empty `linspace`. -/
def numSamples (sampleRate duration : ℚ) : ℕ :=
  (⌊sampleRate * duration⌋).toNat

/-- The `i`-th point of `np.linspace(0, duration, n, endpoint=False)`:
the half-open grid `i * duration / n`. -/
noncomputable def linT (duration : ℝ) (n i : ℕ) : ℝ :=
  i * duration / n

/-- `np.sign` on reals: `1` on positives, `-1` on negatives, `0` at zero. -/
noncomputable def npSign (x : ℝ) : ℝ :=
  if 0 < x then 1 else if x < 0 then -1 else 0

/-- `generate_sine` sample value: `AMPLITUDE * sin(2 pi f t)`. -/
noncomputable def sineSample (frequency duration : ℝ) (n i : ℕ) : ℝ :=
  AMPLITUDE * Real.sin (2 * Real.pi * frequency * linT duration n i)

/-- `generate_square` before the zero fix-up:
`AMPLITUDE * np.sign(np.sin(2 pi f t))`. -/
noncomputable def squareSampleRaw (frequency duration : ℝ) (n i : ℕ) : ℝ :=
  AMPLITUDE * npSign (Real.sin (2 * Real.pi * frequency * linT duration n i))

/-- `generate_square` sample value after `waveform[waveform == 0] = AMPLITUDE`:
any exactly-zero sample is replaced by `AMPLITUDE`. -/
noncomputable def squareSample (frequency duration : ℝ) (n i : ℕ) : ℝ :=
  if squareSampleRaw frequency duration n i = 0 then AMPLITUDE
  else squareSampleRaw frequency duration n i

/-- `generate_triangle` sample value:
`AMPLITUDE * (2 / pi) * arcsin(sin(2 pi f t))`. -/
noncomputable def triangleSample (frequency duration : ℝ) (n i : ℕ) : ℝ :=
  AMPLITUDE * (2 / Real.pi) * Real.arcsin (Real.sin (2 * Real.pi * frequency * linT duration n i))

/-- `generate_sawtooth` sample value:
`AMPLITUDE * 2 * (t * f - np.floor(0.5 + t * f))`. -/
noncomputable def sawtoothSample (frequency duration : ℝ) (n i : ℕ) : ℝ :=
  AMPLITUDE * 2 *
    (linT duration n i * frequency - (⌊(0.5 : ℝ) + linT duration n i * frequency⌋ : ℤ))

/-- The four waveform families of the `waveform_generators` table. -/
inductive WaveFamily where
  | Sine
  | Square
  | Triangle
  | Sawtooth
deriving DecidableEq, Repr

/-- Dispatch over the `waveform_generators` table, per-sample. -/
noncomputable def waveSample : WaveFamily → ℝ → ℝ → ℕ → ℕ → ℝ
  | WaveFamily.Sine => sineSample
  | WaveFamily.Square => squareSample
  | WaveFamily.Triangle => triangleSample
  | WaveFamily.Sawtooth => sawtoothSample

/-- The full synthesized buffer of a generator call: `numSamples` samples on
the half-open `linspace` grid. -/
noncomputable def synthesize (fam : WaveFamily) (frequency duration sampleRate : ℚ) : List ℝ :=
  (List.range (numSamples sampleRate duration)).map
    (waveSample fam (frequency : ℝ) (duration : ℝ) (numSamples sampleRate duration))

/-! ### Rectangle approximation
(`simple_function_area_approximation.py`, lines 31-33 and 50-53) -/

/-- `func_to_approximate(x) = 3 / 256 * x**3 - 9 / 16 * x + 1.75`. -/
noncomputable def funcToApproximate (x : ℝ) : ℝ :=
  3 / 256 * x ^ 3 - 9 / 16 * x + 1.75

/-- `simple_func = lambda x: np.floor(func_to_approximate(x) * n) / n`. -/
noncomputable def simpleFunc (n : ℕ) (x : ℝ) : ℝ :=
  (⌊funcToApproximate x * n⌋ : ℤ) / n

/-! ### Playback controller state (`fundamental_waveforms.py`, lines 21-39,
106-159, 198-213, 216-235)

The mutable `WaveformApp` attributes the play/stop lifecycle touches are
modelled as a record; Tk widget handles, the figure and the buffer itself are
kept abstract. `thread_alive` models `self.audio_thread is not None and
self.audio_thread.is_alive()`; `stop_event_set` models the current
`self.stop_audio_event` flag; `button_text` is the Play/Stop button label. -/

structure UIState where
  is_closed : Bool
  pa_available : Bool
  audio_active : Bool
  thread_alive : Bool
  stop_event_set : Bool
  button_text : String
  master_exists : Bool
deriving DecidableEq, Repr

/-- The state right after `__init__`: not closed, nothing playing, button
label `"Play"`; `pa` may or may not have initialized. -/
def initial_ui (pa : Bool) : UIState :=
  ⟨false, pa, false, false, false, "Play", true⟩

/-- `WaveformApp._update_ui_after_playback_change` (lines 198-213): the
completion callback the worker schedules with `master.after(0, ...)`.
The `winfo_exists` guard and the `config(text=...)` writes are modelled; a
`config` guarded by `text != X` leaves the same label as an unconditional
write, so the label is just assigned. -/
def update_ui_after_playback_change (s : UIState) : UIState :=
  if s.is_closed then s
  else if !s.master_exists then s
  else if !s.audio_active then { s with button_text := "Play" }
  else if s.thread_alive then { s with button_text := "Stop" }
  else { s with audio_active := false, button_text := "Play" }

/-- What a single `on_play_stop_button_click` call produced besides the next
state: a blocking `messagebox` error, whether a worker thread was started and
whether a fresh session (new `threading.Event`) was created. -/
structure ClickOutcome where
  state : UIState
  user_error : Option String
  worker_started : Bool
  session_created : Bool
deriving DecidableEq, Repr

/-- `WaveformApp.on_play_stop_button_click` (lines 125-159).  The frequency
text field is modelled as `Option ℚ`: `none` when `float(...)` raises
`ValueError`, `some f` when it parses to `f`.  The Stop branch sets the
event and flips the label; the Play branch validates the frequency, then
(after the bounded join of a previous thread) creates a fresh un-set event
and starts a new worker. -/
def on_play_stop_button_click (s : UIState) (freq_input : Option ℚ) : ClickOutcome :=
  if s.is_closed then ⟨s, none, false, false⟩
  else if !s.pa_available then ⟨s, some "PyAudio is not available.", false, false⟩
  else if s.audio_active then
    ⟨{ s with audio_active := false, stop_event_set := true, button_text := "Play" },
      none, false, false⟩
  else
    match freq_input with
    | none => ⟨s, some "Invalid frequency.", false, false⟩
    | some f =>
      if f ≤ 0 then ⟨s, some "Frequency must be positive.", false, false⟩
      else
        ⟨{ s with
            audio_active := true
            thread_alive := true
            stop_event_set := false
            button_text := "Stop" },
          none, true, true⟩

/-- `WaveformApp.on_closing` (lines 216-235) restricted to the modelled
fields: clears `audio_active`, sets the stop event, terminates PyAudio and
marks the app closed. -/
def on_closing (s : UIState) : UIState :=
  { s with
    audio_active := false
    stop_event_set := true
    pa_available := false
    is_closed := true }

/-- The worker thread exiting (for any reason) only changes liveness. -/
def thread_exit (s : UIState) : UIState :=
  { s with thread_alive := false }

/-- Display-consistency invariant of the running app: while the app is open,
`audio_active = false` always comes with the button showing `"Play"` (Stop
and natural completion both restore the label together with the flag). -/
def ui_inv (s : UIState) : Prop :=
  s.is_closed = false → s.audio_active = false → s.button_text = "Play"

/-! ### Audio worker (`fundamental_waveforms.py`, lines 161-196)

`_play_audio_thread_target` reads, over time, the shared `stop_event`, the
shared `self.audio_active` flag and `self.pa`; the device layer may raise on
`open` or on any chunk `write`.  The environment packages those inputs:
`stop_set k` / `active k` are the values the worker observes at its `k`-th
poll (poll `0` is the check on line 167, poll `j+1` the check before chunk
`j` on line 173); `write_fails j` says whether writing chunk `j` raises. -/

structure WorkerEnv where
  stop_set : ℕ → Bool
  active : ℕ → Bool
  pa_available : Bool
  open_fails : Bool
  write_fails : ℕ → Bool
  is_closed : Bool
  master_exists : Bool

/-- Observable outcome of one `_play_audio_thread_target` run:
whether a stream was opened, whether its stop/close release ran,
how many chunks were written, and how many times the completion callback
was posted with `master.after(0, ...)`. -/
structure WorkerResult where
  stream_opened : Bool
  stream_closed : Bool
  chunks_written : ℕ
  done_scheduled : ℕ
deriving DecidableEq, Repr

/-- Chunks visited by `for i in range(0, len, FRAMES_PER_BUFFER)`. -/
def numChunks (len : ℕ) : ℕ :=
  (len + FRAMES_PER_BUFFER - 1) / FRAMES_PER_BUFFER

/-- The chunk loop (lines 172-175): before chunk `j` the worker breaks if the
stop event is set or `audio_active` is cleared; a raising write aborts the
loop (caught by the `except` on line 178); otherwise the chunk is written
and counted. -/
def writeLoop (stop_set active write_fails : ℕ → Bool) : ℕ → ℕ → ℕ
  | _, 0 => 0
  | j, r + 1 =>
    if stop_set (j + 1) || !active (j + 1) then 0
    else if write_fails j then 0
    else writeLoop stop_set active write_fails (j + 1) r + 1

/-- `WaveformApp._play_audio_thread_target` (lines 161-196): early returns
(stop already set, `audio_active` cleared, `self.pa is None`), the stream
open (possibly raising), the chunk loop, and the `finally` block, which
stops/closes an opened stream and schedules the UI callback exactly when the
app is not closed and the master window still exists. -/
def run_worker (env : WorkerEnv) (buf_len : ℕ) : WorkerResult :=
  let sched : ℕ := if !env.is_closed && env.master_exists then 1 else 0
  if env.stop_set 0 || !env.active 0 then ⟨false, false, 0, sched⟩
  else if !env.pa_available then ⟨false, false, 0, sched⟩
  else if env.open_fails then ⟨false, false, 0, sched⟩
  else
    ⟨true, true,
      writeLoop env.stop_set env.active env.write_fails 1 (numChunks buf_len), sched⟩

/-! ### Preview plotting (`fundamental_waveforms.py`, lines 106-123) -/

/-- The script constant `NUM_PERIODS_TO_PLOT = 3`. -/
def NUM_PERIODS_TO_PLOT : ℚ := 3

/-- Lines 109-113: start from the default `440.0` and overwrite it only when
the text parses and is strictly positive (`ValueError` is swallowed by
`except ValueError: pass`). -/
def effective_plot_frequency (freq_text : Option ℚ) : ℚ :=
  match freq_text with
  | none => 440
  | some q => if 0 < q then q else 440

/-- Line 115: `max(0.001, min(NUM_PERIODS_TO_PLOT / frequency_hz, 0.2))`. -/
def plot_duration_s (freq : ℚ) : ℚ :=
  max 0.001 (min (NUM_PERIODS_TO_PLOT / freq) 0.2)

/-- What one `update_plot_display_only` call did: `plotted = some (f, d)`
when the axes were redrawn with frequency `f` over `[0, d]`, `none` when the
call returned without touching the plot; `user_error` models any blocking
`messagebox` raised (the function has no such call, so it is always
`none`). -/
structure PlotOutcome where
  plotted : Option (ℚ × ℚ)
  user_error : Option String
deriving DecidableEq, Repr

/-- `WaveformApp.update_plot_display_only` (lines 106-123), frequency logic:
bail out when closed or the figure is gone (line 107), otherwise redraw with
the effective frequency and the clamped preview duration. -/
def update_plot_display_only (closed fig_exists : Bool) (freq_text : Option ℚ) : PlotOutcome :=
  if closed || !fig_exists then ⟨none, none⟩
  else
    ⟨some (effective_plot_frequency freq_text,
      plot_duration_s (effective_plot_frequency freq_text)), none⟩

/-! ### Display-consistency invariant helpers -/

/-- Right after `__init__` the invariant holds: nothing is playing and the
button reads `"Play"`. -/
theorem ui_inv_initial (pa : Bool) : ui_inv (initial_ui pa) :=
  fun _ _ => rfl

/-- Every button click preserves the display-consistency invariant. -/
theorem ui_inv_click (s : UIState) (inp : Option ℚ) (h : ui_inv s) :
    ui_inv (on_play_stop_button_click s inp).state := by
  obtain ⟨c, p, a, t, e, b, m⟩ := s
  rcases inp with _ | q
  · cases c <;> cases p <;> cases a <;>
      simp_all [on_play_stop_button_click, ui_inv]
  · rcases le_or_lt q 0 with hq | hq
    · cases c <;> cases p <;> cases a <;>
        simp_all [on_play_stop_button_click, ui_inv, hq]
    · have hq2 : ¬q ≤ 0 := not_le.mpr hq
      cases c <;> cases p <;> cases a <;>
        simp_all [on_play_stop_button_click, ui_inv, if_neg hq2]

/-- The worker-completion callback preserves the invariant. -/
theorem ui_inv_update (s : UIState) (h : ui_inv s) :
    ui_inv (update_ui_after_playback_change s) := by
  obtain ⟨c, p, a, t, e, b, m⟩ := s
  cases c <;> cases m <;> cases a <;> cases t <;>
    simp_all [update_ui_after_playback_change, ui_inv]

/-- The worker thread exiting preserves the invariant. -/
theorem ui_inv_thread_exit (s : UIState) (h : ui_inv s) :
    ui_inv (thread_exit s) :=
  fun h1 h2 => h h1 h2

/-- `on_closing` preserves the invariant (vacuously: the app is closed). -/
theorem ui_inv_on_closing (s : UIState) : ui_inv (on_closing s) := by
  intro h1 _
  simp [on_closing] at h1

/-- Claim C1: when a stale worker finishes after Stop-then-Play (new session
active and its thread alive, button showing `"Stop"`), the completion
callback leaves the whole state unchanged; and, on any display-consistent
state, the callback moves the label away from `"Stop"` only when the
finishing session is still the active one: active flag set and no live
worker thread. -/
theorem stale_session_completion_keeps_stop_label (s : UIState) (hinv : ui_inv s) :
    (s.audio_active = true → s.thread_alive = true → s.button_text = "Stop" →
      update_ui_after_playback_change s = s) ∧
    (s.button_text = "Stop" → (update_ui_after_playback_change s).button_text ≠ "Stop" →
      s.audio_active = true ∧ s.thread_alive = false) := by
  obtain ⟨c, p, a, t, e, b, m⟩ := s
  cases c <;> cases m <;> cases a <;> cases t <;>
    simp_all [update_ui_after_playback_change, ui_inv]

/-- Claim C1 witness: a concrete stale-completion state (new session active,
its worker alive, button `"Stop"`) is display-consistent and is left exactly
as it is by the callback. -/
theorem stale_session_completion_keeps_stop_label_witness :
    ui_inv ⟨false, true, true, true, false, "Stop", true⟩ ∧
    update_ui_after_playback_change ⟨false, true, true, true, false, "Stop", true⟩ =
      ⟨false, true, true, true, false, "Stop", true⟩ :=
  ⟨by unfold ui_inv; decide,
    (stale_session_completion_keeps_stop_label
      ⟨false, true, true, true, false, "Stop", true⟩
      (by unfold ui_inv; decide)).1 rfl rfl rfl⟩

/-- Claim C2: whatever exit path the worker takes (early return, natural
finish, cancellation mid-loop, or a device exception on open or on a chunk
write), if a stream was opened its stop/close release runs, and the
completion callback is posted to the UI event queue exactly once — provided
the app is not already closing and the window still exists. -/
theorem worker_releases_stream_and_schedules_done_once (env : WorkerEnv) (len : ℕ)
    (hc : env.is_closed = false) (hm : env.master_exists = true) :
    ((run_worker env len).stream_opened = true →
      (run_worker env len).stream_closed = true) ∧
    (run_worker env len).done_scheduled = 1 := by
  unfold run_worker
  cases h1 : env.stop_set 0 || !env.active 0 <;>
    cases h2 : env.pa_available <;>
      cases h3 : env.open_fails <;>
        simp [h1, h2, h3, hc, hm]

/-- Claim C2 witness: a concrete uncancelled run over a five-sample buffer
on a healthy device opens, releases, and schedules the callback once. -/
theorem worker_releases_stream_and_schedules_done_once_witness :
    (⟨fun _ => false, fun _ => true, true, false, fun _ => false, false, true⟩ :
        WorkerEnv).is_closed = false ∧
    ((run_worker ⟨fun _ => false, fun _ => true, true, false, fun _ => false,
        false, true⟩ 5).stream_opened = true →
      (run_worker ⟨fun _ => false, fun _ => true, true, false, fun _ => false,
        false, true⟩ 5).stream_closed = true) ∧
    (run_worker ⟨fun _ => false, fun _ => true, true, false, fun _ => false,
        false, true⟩ 5).done_scheduled = 1 :=
  ⟨rfl,
    (worker_releases_stream_and_schedules_done_once _ 5 rfl rfl).1,
    (worker_releases_stream_and_schedules_done_once _ 5 rfl rfl).2⟩

/-- Claim C3 counterexample: two worker runs that agree on the cancellation
flag history (never set), the buffer (1024 samples) and the device behaviour,
and differ only in the UI-side mutable `audio_active` flag, write a different
number of chunks — so the cancellation flag is not the only mutable UI-side
state the worker's chunk-writing decision reads. -/
theorem worker_output_depends_on_audio_active :
    (run_worker ⟨fun _ => false, fun _ => true, true, false, fun _ => false,
        false, true⟩ 1024).chunks_written ≠
    (run_worker ⟨fun _ => false, fun _ => false, true, false, fun _ => false,
        false, true⟩ 1024).chunks_written := by
  decide

/-- Claim C3 (amended): the worker polls both the cancellation flag and the
shared `audio_active` flag (and checks the shared PyAudio handle), so its
chunk-writing behaviour is a function of those observations, the buffer
length and the device behaviour only: two runs agreeing on them write
identical chunks, whatever the remaining UI-side state (`_is_closed`, the
window's existence). -/
theorem worker_chunks_determined_by_polled_flags_and_device
    (ss act wf : ℕ → Bool) (pa opf : Bool) (len : ℕ) (c1 m1 c2 m2 : Bool) :
    (run_worker ⟨ss, act, pa, opf, wf, c1, m1⟩ len).chunks_written =
    (run_worker ⟨ss, act, pa, opf, wf, c2, m2⟩ len).chunks_written := by
  cases h1 : ss 0 || !act 0 <;> cases pa <;> cases opf <;>
    simp [run_worker, h1]

/-- Claim C4 counterexample: at sample rate 10 and duration 3/20 the product
is 3/2, and the synthesized buffer has `int`-truncated length 1, not the
rounded length 2 — the length is the truncation of rate times duration, not
its rounding. -/
theorem synthesize_length_not_round :
    (synthesize WaveFamily.Sine 440 (3 / 20) 10).length ≠
      (round ((10 : ℚ) * (3 / 20))).toNat := by
  simp only [synthesize, List.length_map, List.length_range, numSamples]
  rw [round_eq]
  norm_num
  decide

/-- Claim C4 (amended): for every family and all inputs, `synthesize`
returns a buffer of length `int(sampleRate * duration)` — the truncation
(floor, for positive products) of the product, not its rounding. -/
theorem synthesize_length_eq_truncation (fam : WaveFamily) (f d r : ℚ) :
    (synthesize fam f d r).length = (⌊r * d⌋).toNat := by
  simp [synthesize, numSamples]

/-- Claim C8: a Play press (app open, PyAudio up, nothing playing) whose
frequency text does not parse, or parses non-positive, surfaces a blocking
user error and does nothing else: same state (button label included), no
worker thread started, no session created. -/
theorem play_with_invalid_frequency_is_rejected (s : UIState) (inp : Option ℚ)
    (hopen : s.is_closed = false) (hpa : s.pa_available = true)
    (hidle : s.audio_active = false)
    (hbad : inp = none ∨ ∃ q, inp = some q ∧ q ≤ 0) :
    (on_play_stop_button_click s inp).state = s ∧
    (on_play_stop_button_click s inp).user_error.isSome = true ∧
    (on_play_stop_button_click s inp).worker_started = false ∧
    (on_play_stop_button_click s inp).session_created = false := by
  rcases hbad with rfl | ⟨q, rfl, hq⟩
  · simp [on_play_stop_button_click, hopen, hpa, hidle]
  · simp [on_play_stop_button_click, hopen, hpa, hidle, if_pos hq]

/-- Claim C8 witness: pressing Play on the freshly initialized app with the
frequency text `-5` changes nothing and surfaces an error. -/
theorem play_with_invalid_frequency_is_rejected_witness :
    (initial_ui true).is_closed = false ∧
    (initial_ui true).audio_active = false ∧
    ((-5 : ℚ) ≤ 0) ∧
    ((on_play_stop_button_click (initial_ui true) (some (-5))).state = initial_ui true ∧
      (on_play_stop_button_click (initial_ui true) (some (-5))).user_error.isSome = true ∧
      (on_play_stop_button_click (initial_ui true) (some (-5))).worker_started = false ∧
      (on_play_stop_button_click (initial_ui true) (some (-5))).session_created = false) :=
  ⟨rfl, rfl, by norm_num,
    play_with_invalid_frequency_is_rejected (initial_ui true) (some (-5))
      rfl rfl rfl (Or.inr ⟨-5, rfl, by norm_num⟩)⟩

/-- Claim C9: when the preview is refreshed with a frequency text that does
not parse or is not strictly positive, the redraw still happens, silently,
at the 440 Hz default — the call raises no user-facing error and does not
skip the redraw. -/
theorem preview_falls_back_to_default_frequency (closed fig : Bool) (t : Option ℚ)
    (hc : closed = false) (hf : fig = true)
    (hbad : t = none ∨ ∃ q, t = some q ∧ q ≤ 0) :
    update_plot_display_only closed fig t =
      ⟨some (440, plot_duration_s 440), none⟩ := by
  subst hc hf
  rcases hbad with rfl | ⟨q, rfl, hq⟩
  · simp [update_plot_display_only, effective_plot_frequency]
  · have hq2 : ¬(0 : ℚ) < q := not_lt.mpr hq
    simp [update_plot_display_only, effective_plot_frequency, if_neg hq2]

/-- Claim C9 witness: refreshing the open preview with the text `-5`
redraws at 440 Hz with no error. -/
theorem preview_falls_back_to_default_frequency_witness :
    ((-5 : ℚ) ≤ 0) ∧
    update_plot_display_only false true (some (-5)) =
      ⟨some (440, plot_duration_s 440), none⟩ :=
  ⟨by norm_num,
    preview_falls_back_to_default_frequency false true (some (-5))
      rfl rfl (Or.inr ⟨-5, rfl, by norm_num⟩)⟩

/-! ### Sample-value lemmas -/

/-- After the zero fix-up, every square-wave sample is exactly
`AMPLITUDE` or `-AMPLITUDE`. -/
theorem squareSample_values (f d : ℝ) (n i : ℕ) :
    squareSample f d n i = AMPLITUDE ∨ squareSample f d n i = -AMPLITUDE := by
  have hA : (0 : ℝ) < AMPLITUDE := by norm_num [AMPLITUDE]
  unfold squareSample squareSampleRaw npSign
  rcases lt_trichotomy 0 (Real.sin (2 * Real.pi * f * linT d n i)) with h | h | h
  · rw [if_pos h, if_neg (by nlinarith : ¬AMPLITUDE * 1 = 0)]
    left; ring
  · have hns : ¬0 < Real.sin (2 * Real.pi * f * linT d n i) := by
      rw [← h]; exact lt_irrefl 0
    have hns2 : ¬Real.sin (2 * Real.pi * f * linT d n i) < 0 := by
      rw [← h]; exact lt_irrefl 0
    rw [if_neg hns, if_neg hns2, mul_zero, if_pos rfl]
    left; rfl
  · rw [if_neg (fun hlt => lt_asymm h hlt), if_pos h,
      if_neg (by nlinarith : ¬AMPLITUDE * (-1) = 0)]
    right; ring

/-- Claim C5: every square-wave sample equals `0.5` or `-0.5` — the
zero-crossing samples are mapped to `+0.5`, never left at zero. -/
theorem square_samples_plus_minus_half (f d : ℝ) (n i : ℕ) (hf : 0 < f) :
    squareSample f d n i = 0.5 ∨ squareSample f d n i = -0.5 := by
  simpa [AMPLITUDE] using squareSample_values f d n i

/-- Claim C5 witness: the very first sample at 1 Hz sits on a zero crossing
(`sin 0 = 0`) and is `+0.5`. -/
theorem square_samples_plus_minus_half_witness :
    (0 : ℝ) < 1 ∧
    (squareSample 1 1 1 0 = 0.5 ∨ squareSample 1 1 1 0 = -0.5) :=
  ⟨by norm_num, square_samples_plus_minus_half 1 1 1 0 (by norm_num)⟩

/-- The sine samples stay within `[-0.5, 0.5]`. -/
theorem sineSample_bounds (f d : ℝ) (n i : ℕ) :
    -(0.5 : ℝ) ≤ sineSample f d n i ∧ sineSample f d n i ≤ 0.5 := by
  unfold sineSample AMPLITUDE
  constructor <;>
    linarith [Real.neg_one_le_sin (2 * Real.pi * f * linT d n i),
      Real.sin_le_one (2 * Real.pi * f * linT d n i)]

/-- The square samples stay within `[-0.5, 0.5]`. -/
theorem squareSample_bounds (f d : ℝ) (n i : ℕ) :
    -(0.5 : ℝ) ≤ squareSample f d n i ∧ squareSample f d n i ≤ 0.5 := by
  rcases squareSample_values f d n i with h | h <;> rw [h] <;>
    norm_num [AMPLITUDE]

/-- The triangle samples stay within `[-0.5, 0.5]`. -/
theorem triangleSample_bounds (f d : ℝ) (n i : ℕ) :
    -(0.5 : ℝ) ≤ triangleSample f d n i ∧ triangleSample f d n i ≤ 0.5 := by
  unfold triangleSample AMPLITUDE
  have hp : (0 : ℝ) < Real.pi := Real.pi_pos
  set a := Real.arcsin (Real.sin (2 * Real.pi * f * linT d n i)) with ha
  have h1 : a ≤ Real.pi / 2 := Real.arcsin_le_pi_div_two _
  have h2 : -(Real.pi / 2) ≤ a := Real.neg_pi_div_two_le_arcsin _
  have e : (0.5 : ℝ) * (2 / Real.pi) * a = a / Real.pi := by
    field_simp
    ring
  rw [e]
  constructor
  · rw [le_div_iff hp]; linarith
  · rw [div_le_iff hp]; linarith

/-- The sawtooth samples stay within `[-0.5, 0.5]`. -/
theorem sawtoothSample_bounds (f d : ℝ) (n i : ℕ) :
    -(0.5 : ℝ) ≤ sawtoothSample f d n i ∧ sawtoothSample f d n i ≤ 0.5 := by
  unfold sawtoothSample AMPLITUDE
  have h1 : ((⌊(0.5 : ℝ) + linT d n i * f⌋ : ℤ) : ℝ) ≤ (0.5 : ℝ) + linT d n i * f :=
    Int.floor_le _
  have h2 : (0.5 : ℝ) + linT d n i * f < (⌊(0.5 : ℝ) + linT d n i * f⌋ : ℤ) + 1 :=
    Int.lt_floor_add_one _
  constructor <;> linarith

/-- Claim C7: for every waveform family and positive frequency, every sample
of the synthesized buffer lies in the closed interval `[-0.5, 0.5]`. -/
theorem all_families_samples_within_half (f d : ℝ) (n i : ℕ) (hf : 0 < f) :
    ∀ fam : WaveFamily,
      -(0.5 : ℝ) ≤ waveSample fam f d n i ∧ waveSample fam f d n i ≤ 0.5 := by
  intro fam
  cases fam
  · exact sineSample_bounds f d n i
  · exact squareSample_bounds f d n i
  · exact triangleSample_bounds f d n i
  · exact sawtoothSample_bounds f d n i

/-- Claim C7 witness: the first sine sample at 1 Hz lies in `[-0.5, 0.5]`. -/
theorem all_families_samples_within_half_witness :
    (0 : ℝ) < 1 ∧
    (-(0.5 : ℝ) ≤ waveSample WaveFamily.Sine 1 1 1 0 ∧
      waveSample WaveFamily.Sine 1 1 1 0 ≤ 0.5) :=
  ⟨by norm_num, all_families_samples_within_half 1 1 1 0 (by norm_num) WaveFamily.Sine⟩

/-- Claim C6: sawtooth samples are strictly increasing between consecutive
sample indices that fall in the same period, a period being a maximal run
where `floor(0.5 + t * f)` is constant — the ramp only resets at period
boundaries. -/
theorem sawtooth_strictly_increasing_within_period (f d : ℝ) (n i : ℕ)
    (hf : 0 < f) (hd : 0 < d) (hn : 0 < n)
    (hper : ⌊(0.5 : ℝ) + linT d n i * f⌋ = ⌊(0.5 : ℝ) + linT d n (i + 1) * f⌋) :
    sawtoothSample f d n i < sawtoothSample f d n (i + 1) := by
  have hn' : (0 : ℝ) < n := by exact_mod_cast hn
  have ht : linT d n i < linT d n (i + 1) := by
    unfold linT
    have h1 : (i : ℝ) * (d / n) < ((i : ℝ) + 1) * (d / n) :=
      mul_lt_mul_of_pos_right (by linarith) (div_pos hd hn')
    have h2 : ((i + 1 : ℕ) : ℝ) = (i : ℝ) + 1 := by push_cast; ring
    rw [h2]
    calc (i : ℝ) * d / n = (i : ℝ) * (d / n) := by ring
    _ < ((i : ℝ) + 1) * (d / n) := h1
    _ = ((i : ℝ) + 1) * d / n := by ring
  have htf : linT d n i * f < linT d n (i + 1) * f :=
    mul_lt_mul_of_pos_right ht hf
  unfold sawtoothSample AMPLITUDE
  rw [hper]
  linarith

/-- Claim C6 witness: at 1 Hz with four samples over one second, samples 0
and 1 share the period (`floor(0.5 + t f)` is 0 at both) and the sawtooth
strictly increases between them. -/
theorem sawtooth_strictly_increasing_within_period_witness :
    (0 : ℝ) < 1 ∧ 0 < 4 ∧
    ⌊(0.5 : ℝ) + linT 1 4 0 * 1⌋ = ⌊(0.5 : ℝ) + linT 1 4 1 * 1⌋ ∧
    sawtoothSample 1 1 4 0 < sawtoothSample 1 1 4 1 := by
  have e1 : ⌊(0.5 : ℝ) + linT 1 4 0 * 1⌋ = 0 :=
    Int.floor_eq_iff.mpr (by norm_num [linT])
  have e2 : ⌊(0.5 : ℝ) + linT 1 4 1 * 1⌋ = 0 :=
    Int.floor_eq_iff.mpr (by norm_num [linT])
  refine ⟨by norm_num, by norm_num, e1.trans e2.symm, ?_⟩
  exact sawtooth_strictly_increasing_within_period 1 1 4 0
    (by norm_num) (by norm_num) (by norm_num) (e1.trans e2.symm)

/-- Claim C10: for every refinement level `n > 0` and point where the
function is nonnegative, the rectangle height `floor(f(x) n) / n`
underestimates `f(x)` by strictly less than `1 / n`. -/
theorem simple_function_underestimates_within_inv_n (n : ℕ) (x : ℝ)
    (hn : 0 < n) (hfx : 0 ≤ funcToApproximate x) :
    simpleFunc n x ≤ funcToApproximate x ∧
      funcToApproximate x < simpleFunc n x + 1 / n := by
  have hn' : (0 : ℝ) < n := by exact_mod_cast hn
  unfold simpleFunc
  constructor
  · rw [div_le_iff hn']
    exact Int.floor_le (funcToApproximate x * n)
  · rw [div_add_div_same, lt_div_iff hn']
    have h := Int.lt_floor_add_one (funcToApproximate x * n)
    push_cast
    linarith
  
/-- Claim C10 witness: at `x = 0` (where the function value is `1.75`) and
refinement level `n = 2`, the rectangle height bounds hold. -/
theorem simple_function_underestimates_within_inv_n_witness :
    0 < 2 ∧ (0 : ℝ) ≤ funcToApproximate 0 ∧
    (simpleFunc 2 0 ≤ funcToApproximate 0 ∧
      funcToApproximate 0 < simpleFunc 2 0 + 1 / 2) := by
  have h := simple_function_underestimates_within_inv_n 2 0 (by norm_num)
    (by norm_num [funcToApproximate])
  refine ⟨by norm_num, by norm_num [funcToApproximate], ?_, ?_⟩
  · exact h.1
  · have := h.2
    norm_num at this ⊢
    exact this
